import Mathlib

/-! AITracker: crop geometry, face selection and landmark decoding.

A shallow embedding of `AITracker/src/model.cpp` (the `StandardTracker` and
`EfficientTracker` classes) together with the properties proved about it.

Numeric model.  The C++ code computes in `float`/`double`; here every floating
value is an exact rational (`ℚ`), so rounding error, infinities and NaN are not
represented.  C `int` values are `ℤ`.  The C conversion `(int) v` is truncation
toward zero (`cast_int`).  The C library function `log` is not part of the
repository: the embedding takes it as the parameter `ln : ℚ → ℚ`.

Literals.  A decimal literal of the code is taken at its decimal value, which
differs from the stored float in the last bit only.  The one exception is the
clamp bound `0.9999999f` of `logit`: the float nearest to 0.9999999 is
`1 - 2^-23 = 8388607 / 8388608`, and since `logit` goes on to compute `1 - p`
the difference is no rounding matter (`p / (1 - p)` is 8388607, not 9999999).
That literal is taken at its float value.
-/

namespace AITracker

/-! ## Numeric helpers -/

/-- The C conversion `(int) v` of a floating value `v`: the fractional part is
discarded, i.e. the value is truncated toward zero. -/
def cast_int (q : ℚ) : ℤ := Int.tdiv q.num q.den

/-- Truncation toward zero, stated with floor and ceiling: the mathematical
reading of `trunc` used in the statements below. -/
def trunc (q : ℚ) : ℤ := if 0 ≤ q then ⌊q⌋ else ⌈q⌉

/-- The value `p` clamped to the interval `[lo, hi]`. -/
def clamp (lo hi p : ℚ) : ℚ := max lo (min p hi)

/-! ## `logit` (model.cpp, lines 13-22) -/

/-- The float literal `0.9999999f`: the single-precision value nearest to
0.9999999, which is `1 - 2^-23`. -/
def float_0_9999999 : ℚ := 8388607 / 8388608

/-- The function `logit` of model.cpp.  `ln` stands for the C library `log`. -/
def logit (ln : ℚ → ℚ) (p : ℚ) : ℚ :=
  let p :=
    if p ≥ float_0_9999999 then float_0_9999999 else if p ≤ 0.0000001 then 0.0000001 else p
  let p := p / (1 - p)
  ln p / 16

/-! ## `StandardTracker::proc_face_detect` (model.cpp, lines 202-218) -/

/-- The method `proc_face_detect`.  The array `face` of four floats is the
tuple `(face[0], face[1], face[2], face[3])`; the method overwrites it, so the
embedding returns the new contents. -/
def proc_face_detect (face : ℚ × ℚ × ℚ × ℚ) (width height : ℚ) : ℚ × ℚ × ℚ × ℚ :=
  let x := face.1
  let y := face.2.1
  let w := face.2.2.1
  let h := face.2.2.2
  let crop_x1 : ℤ := cast_int (x - w * 0.1)
  let crop_y1 : ℤ := cast_int (y - h * 0.1)
  let crop_x2 : ℤ := cast_int (x + w + w * 0.1)
  let crop_y2 : ℤ := cast_int (y + h + h * 0.1)
  (((max 0 crop_x1 : ℤ) : ℚ), ((max 0 crop_y1 : ℤ) : ℚ),
    ((min (cast_int width) crop_x2 : ℤ) : ℚ), ((min (cast_int height) crop_y2 : ℤ) : ℚ))

/-! ## Images, detections and the result record -/

/-- An image (`cv::Mat`).  The code reads only the dimensions; the pixel buffer
is consumed by the external collaborators alone. -/
structure Mat where
  rows : ℤ
  cols : ℤ
  data : List ℚ

/-- One row of the `faces` matrix filled by the face detector.  The code reads
columns 0 to 3 (`x`, `y`, `width`, `height` of the box). -/
structure FaceRow where
  c0 : ℚ
  c1 : ℚ
  c2 : ℚ
  c3 : ℚ

/-- Modelled from the spec: the record `FaceData` is declared in a header that
is not among the sources.  It holds the detection flag, the crop box
`face_coords[0..3]` and the array `landmark_coords` of 66 coordinate pairs
(indexed from 0; the code writes indices 0 to 131). -/
structure FaceData where
  landmark_coords : ℕ → ℚ
  face_coords : ℤ × ℤ × ℤ × ℤ
  face_detected : Bool

/-- The read `faces.at<float>(row, ·)`: defined only for a row of the matrix. -/
def faces_at (faces : List FaceRow) (row : ℤ) : Option FaceRow :=
  if 0 ≤ row then faces[row.toNat]? else none

/-! ## Face selection (model.cpp, lines 99-135) -/

/-- The method `get_distance_squared`. -/
def get_distance_squared (x0 y0 x1 y1 : ℚ) : ℚ :=
  let x_distance := x1 - x0
  let y_distance := y1 - y0
  let distance_squared := x_distance * x_distance + y_distance * y_distance
  distance_squared

/-- The `for` loop of `get_center_weighted_faces_row`, run on the rows that
remain, `row` being the index of the first of them.  The state is the pair
`(smallest_distance_squared, center_weighted_face_row)`. -/
def faces_loop (image_center_x image_center_y : ℚ) : List FaceRow → ℤ → ℚ × ℤ → ℚ × ℤ
  | [], _, st => st
  | f :: rest, row, (smallest_distance_squared, center_weighted_face_row) =>
    let x0 := f.c0
    let y0 := f.c1
    let face_w := f.c2
    let face_h := f.c3
    let face_center_x := x0 + face_w / 2
    let face_center_y := y0 + face_h / 2
    let distance_squared :=
      get_distance_squared image_center_x image_center_y face_center_x face_center_y
    if center_weighted_face_row = -1 ∨ distance_squared < smallest_distance_squared then
      faces_loop image_center_x image_center_y rest (row + 1) (distance_squared, row)
    else
      faces_loop image_center_x image_center_y rest (row + 1)
        (smallest_distance_squared, center_weighted_face_row)

/-- The method `get_center_weighted_faces_row`; the result `-1` is "none". -/
def get_center_weighted_faces_row (image : Mat) (faces : List FaceRow) : ℤ :=
  let image_center_x : ℚ := ((Int.tdiv image.rows 2 : ℤ) : ℚ)
  let image_center_y : ℚ := ((Int.tdiv image.cols 2 : ℤ) : ℚ)
  (faces_loop image_center_x image_center_y faces 0 (0, -1)).2

/-- The squared distance the loop computes for one row, given the image
centre it uses. -/
def face_distance (image_center_x image_center_y : ℚ) (f : FaceRow) : ℚ :=
  (f.c0 + f.c2 / 2 - image_center_x) ^ 2 + (f.c1 + f.c3 / 2 - image_center_y) ^ 2

/-- The image centre as the code computes it: `x` from `rows`, `y` from `cols`,
each halved by integer division. -/
def code_center (image : Mat) : ℚ × ℚ :=
  (((Int.tdiv image.rows 2 : ℤ) : ℚ), ((Int.tdiv image.cols 2 : ℤ) : ℚ))

/-- The centre point of the frame: horizontal coordinate from the width
(`cols`), vertical coordinate from the height (`rows`). -/
def frame_center (image : Mat) : ℚ × ℚ :=
  ((image.cols : ℚ) / 2, (image.rows : ℚ) / 2)

/-! ## Heatmap decoding (model.cpp, lines 220-255) -/

/-- One iteration of the inner loop of `proc_heatmaps`; the state is
`(argmax, maxval)`. -/
def argmax_step (landmark_heatmap : ℤ → ℚ) (st : ℤ × ℚ) (i : ℕ) : ℤ × ℚ :=
  if landmark_heatmap i > st.2 then ((i : ℤ), landmark_heatmap i) else st

/-- The inner loop of `proc_heatmaps` over `i = 0 .. heatmap_size - 1`, started
from `argmax = -100`, `maxval = -100`. -/
def heatmap_argmax (landmark_heatmap : ℤ → ℚ) (heatmap_size : ℕ) : ℤ × ℚ :=
  (List.range heatmap_size).foldl (argmax_step landmark_heatmap) (-100, -100)

/-- The body of the outer loop of `proc_heatmaps` up to the two stores: the
pair `(lm_x, lm_y)` computed for `landmark`. -/
def heatmap_landmark (ln : ℚ → ℚ) (heatmaps : ℤ → ℚ) (x0 y0 : ℤ) (scale_x scale_y : ℚ)
    (landmark : ℕ) : ℚ × ℚ :=
  let heatmap_size : ℤ := 784
  let offset : ℤ := heatmap_size * landmark
  let argmax : ℤ := (heatmap_argmax (fun i => heatmaps (offset + i)) 784).1
  let x : ℤ := Int.tdiv argmax 28
  let y : ℤ := Int.tmod argmax 28
  let res : ℚ := 223
  let off_x : ℤ :=
    cast_int ((⌊res * logit ln (heatmaps (66 * heatmap_size + offset + argmax)) + 0.1⌋ : ℤ) : ℚ)
  let off_y : ℤ :=
    cast_int ((⌊res * logit ln (heatmaps (2 * 66 * heatmap_size + offset + argmax)) + 0.1⌋ : ℤ) : ℚ)
  let lm_x : ℚ := (y0 : ℚ) + scale_x * (res * ((x : ℚ) / 27) + off_x)
  let lm_y : ℚ := (x0 : ℚ) + scale_y * (res * ((y : ℚ) / 27) + off_y)
  (lm_x, lm_y)

/-- The two stores that end an iteration of a decoding loop:
`landmark_coords[2 * landmark] = p.1` and `landmark_coords[2 * landmark + 1] = p.2`. -/
def store_landmark (face_data : FaceData) (landmark : ℕ) (p : ℚ × ℚ) : FaceData :=
  { face_data with
    landmark_coords :=
      Function.update (Function.update face_data.landmark_coords (2 * landmark) p.1)
        (2 * landmark + 1) p.2 }

/-- The method `proc_heatmaps`: the loop over the 66 landmarks. -/
def proc_heatmaps (ln : ℚ → ℚ) (heatmaps : ℤ → ℚ) (x0 y0 : ℤ) (scale_x scale_y : ℚ)
    (face_data : FaceData) : FaceData :=
  (List.range 66).foldl
    (fun fd landmark =>
      store_landmark fd landmark (heatmap_landmark ln heatmaps x0 y0 scale_x scale_y landmark))
    face_data

/-! ## Direct regression decoding (model.cpp, lines 309-316) -/

/-- The body of the loop that ends `EfficientTracker::detect_landmarks`, up to
the two stores. -/
def regression_landmark (output_arr : ℤ → ℚ) (x0 y0 : ℤ) (scale_x scale_y : ℚ)
    (landmark : ℕ) : ℚ × ℚ :=
  let pred_x : ℚ := output_arr (2 * landmark) * 114
  let pred_y : ℚ := output_arr (2 * landmark + 1) * 114
  (pred_y * scale_x + y0, pred_x * scale_y + x0)

/-- The loop that ends `EfficientTracker::detect_landmarks`. -/
def regression_decode (output_arr : ℤ → ℚ) (x0 y0 : ℤ) (scale_x scale_y : ℚ)
    (face_data : FaceData) : FaceData :=
  (List.range 66).foldl
    (fun fd landmark =>
      store_landmark fd landmark (regression_landmark output_arr x0 y0 scale_x scale_y landmark))
    face_data

/-! ## The tracker (model.cpp, lines 61-85, 137-200, 276-317) -/

/-- The external collaborators whose invocations are recorded. -/
inductive Call where
  | face_detector
  | landmark_session
  | landmark_filter
  | pose_solver
  deriving DecidableEq

/-- The external collaborators of a tracker, as functions.  `landmark_model`
is the preprocessing of the crop followed by the inference session run; it
yields the output tensor `output_arr`. -/
structure Collaborators where
  ln : ℚ → ℚ
  resize : Mat → ℤ → ℤ → Mat
  crop : Mat → ℤ × ℤ → ℤ × ℤ → Mat
  face_detector_detect : Mat → List FaceRow
  landmark_model : Mat → ℤ → ℚ
  solve_rotation : FaceData → FaceData

/-- The two tracker classes; they differ in `detect_landmarks`. -/
inductive TrackerKind where
  | standard
  | efficient
  deriving DecidableEq

/-- The tracker state the code reads: its class and `tensor_input_dims[0..3]`.
The dimensions of a `StandardTracker` are set in a header that is not among the
sources, so they are a field here. -/
structure Tracker where
  kind : TrackerKind
  tensor_input_dims : ℤ × ℤ × ℤ × ℤ

/-- The constructor `EfficientTracker::EfficientTracker`. -/
def EfficientTracker : Tracker :=
  { kind := TrackerKind.efficient, tensor_input_dims := (1, 1, 114, 114) }

/-- The method `detect_face`.  It returns the updated record and the
collaborator calls made; `none` stands for a read outside the `faces` matrix. -/
def detect_face (C : Collaborators) (image : Mat) (face_data : FaceData) :
    Option (FaceData × List Call) :=
  let resized := C.resize image 114 114
  let width : ℚ := (image.cols : ℚ)
  let height : ℚ := (image.rows : ℚ)
  let im_width : ℤ := resized.cols
  let im_height : ℤ := resized.rows
  let faces := C.face_detector_detect resized
  let face_data := { face_data with face_detected := false }
  if faces.length > 0 then
    let face_data := { face_data with face_detected := true }
    let center_weighted := true
    let faces_row : ℤ := if center_weighted then get_center_weighted_faces_row image faces else 0
    match faces_at faces faces_row with
    | none => none
    | some f =>
      let x0 := f.c0
      let y0 := f.c1
      let face_w := f.c2
      let face_h := f.c3
      let w_ratio : ℚ := width / (im_width : ℚ)
      let h_ratio : ℚ := height / (im_height : ℚ)
      let x_offset : ℚ := 0
      let y_offset : ℚ := 0
      let face : ℚ × ℚ × ℚ × ℚ :=
        ((x0 - x_offset) * w_ratio, (y0 - y_offset) * h_ratio, face_w * w_ratio, face_h * h_ratio)
      let face := proc_face_detect face width height
      some ({ face_data with
              face_coords :=
                (cast_int face.1, cast_int face.2.1, cast_int face.2.2.1, cast_int face.2.2.2) },
            [Call.face_detector])
  else
    some (face_data, [Call.face_detector])

/-- The virtual method `detect_landmarks`: the model run followed by the
decoding of the class. -/
def detect_landmarks (T : Tracker) (C : Collaborators) (image : Mat) (x0 y0 : ℤ)
    (scale_x scale_y : ℚ) (face_data : FaceData) : FaceData × List Call :=
  let output_arr := C.landmark_model image
  match T.kind with
  | TrackerKind.standard =>
    (proc_heatmaps C.ln output_arr x0 y0 scale_x scale_y face_data, [Call.landmark_session])
  | TrackerKind.efficient =>
    (regression_decode output_arr x0 y0 scale_x scale_y face_data, [Call.landmark_session])

/-- Lines 67-78 of `predict`: the crop, the two scales and the call of
`detect_landmarks`. -/
def predict_landmarks (T : Tracker) (C : Collaborators) (image : Mat) (face_data : FaceData) :
    FaceData × List Call :=
  let p1 : ℤ × ℤ := (face_data.face_coords.1, face_data.face_coords.2.1)
  let p2 : ℤ × ℤ := (face_data.face_coords.2.2.1, face_data.face_coords.2.2.2)
  let cropped := C.crop image p1 p2
  let height : ℤ := face_data.face_coords.2.2.1 - face_data.face_coords.1
  let width : ℤ := face_data.face_coords.2.2.2 - face_data.face_coords.2.1
  let scale_x : ℚ := (width : ℚ) / (T.tensor_input_dims.2.2.1 : ℚ)
  let scale_y : ℚ := (height : ℚ) / (T.tensor_input_dims.2.2.2 : ℚ)
  detect_landmarks T C cropped face_data.face_coords.1 face_data.face_coords.2.1 scale_x scale_y
    face_data

/-- The method `predict`.  `filter` is `none` for a null filter pointer. -/
def predict (T : Tracker) (C : Collaborators) (image : Mat) (face_data : FaceData)
    (filter : Option ((ℕ → ℚ) → ℕ → ℚ)) : Option (FaceData × List Call) :=
  match detect_face C image face_data with
  | none => none
  | some (face_data, calls) =>
    if face_data.face_detected then
      let (face_data, calls_lm) := predict_landmarks T C image face_data
      let (face_data, calls_filter) :=
        match filter with
        | some f =>
          ({ face_data with landmark_coords := f face_data.landmark_coords },
            [Call.landmark_filter])
        | none => (face_data, [])
      some (C.solve_rotation face_data, calls ++ calls_lm ++ calls_filter ++ [Call.pose_solver])
    else
      some (face_data, calls)

/-! ## Lemmas on truncation -/

theorem cast_int_eq_trunc (q : ℚ) : cast_int q = trunc q := by
  unfold cast_int trunc
  split_ifs with h
  · rw [Rat.floor_def]
    exact Int.tdiv_eq_ediv (Rat.num_nonneg.mpr h) (Int.ofNat_nonneg _)
  · have hneg : 0 ≤ -q := by linarith [not_le.mp h]
    have h1 : q.num = -((-q).num) := by simp
    have h2 : (q.den : ℤ) = ((-q).den : ℤ) := by simp
    have h3 : ⌈q⌉ = -⌊-q⌋ := by rw [← Int.ceil_neg, neg_neg]
    rw [h3, Rat.floor_def, h1, Int.neg_tdiv, h2]
    congr 1
    exact Int.tdiv_eq_ediv (Rat.num_nonneg.mpr hneg) (Int.ofNat_nonneg _)

theorem trunc_intCast (z : ℤ) : trunc (z : ℚ) = z := by
  unfold trunc; split_ifs <;> simp

theorem cast_int_intCast (z : ℤ) : cast_int (z : ℚ) = z := by
  rw [cast_int_eq_trunc, trunc_intCast]

theorem trunc_mono {a b : ℚ} (h : a ≤ b) : trunc a ≤ trunc b := by
  unfold trunc
  split_ifs with ha hb hb
  · exact Int.floor_le_floor h
  · exact absurd (le_trans ha h) hb
  · exact le_trans (Int.ceil_le.mpr (by push_cast; linarith)) (Int.floor_nonneg.mpr hb)
  · exact Int.ceil_le_ceil h

theorem trunc_nonneg_iff (q : ℚ) : 0 ≤ trunc q ↔ -1 < q := by
  unfold trunc
  split_ifs with h
  · rw [Int.floor_nonneg]
    constructor
    · intro _; linarith
    · intro _; exact h
  · rw [Int.le_ceil_iff]; norm_num

theorem trunc_le_iff (q : ℚ) (z : ℤ) (hz : 0 ≤ z) : trunc q ≤ z ↔ q < z + 1 := by
  unfold trunc
  split_ifs with h
  · rw [← Int.lt_add_one_iff, Int.floor_lt]; push_cast; rfl
  · rw [Int.ceil_le]
    have hz' : (0 : ℚ) ≤ z := by exact_mod_cast hz
    constructor <;> intro _ <;> linarith [not_le.mp h]

/-! ## Crop geometry -/

/-- The four outputs of `proc_face_detect`, stated with `trunc`. -/
theorem proc_face_detect_eq (x y w h : ℚ) (W H : ℤ) :
    proc_face_detect (x, y, w, h) (W : ℚ) (H : ℚ)
      = (((max 0 (trunc (x - 0.1 * w)) : ℤ) : ℚ), ((max 0 (trunc (y - 0.1 * h)) : ℤ) : ℚ),
          ((min W (trunc (x + w + 0.1 * w)) : ℤ) : ℚ),
          ((min H (trunc (y + h + 0.1 * h)) : ℤ) : ℚ)) := by
  simp only [proc_face_detect, cast_int_eq_trunc, trunc_intCast, mul_comm]

/-- C1 (as stated, refuted): for the box `{x:10, y:10, w:80, h:80}` in a
200 x 200 frame the code yields the bottom edge `y1 = 98`, which is neither the
stated value 106 nor the stated formula `min(H, trunc(y + h + 0.1*h + 0.1*h))`. -/
theorem proc_face_detect_bottom_not_doubled :
    (proc_face_detect (10, 10, 80, 80) 200 200).2.2.2 = 98 ∧
      (proc_face_detect (10, 10, 80, 80) 200 200).2.2.2 ≠ 106 ∧
      (proc_face_detect (10, 10, 80, 80) 200 200).2.2.2
        ≠ ((min (200 : ℤ) (trunc (10 + 80 + 0.1 * 80 + 0.1 * 80)) : ℤ) : ℚ) := by
  have h := proc_face_detect_eq 10 10 80 80 200 200
  norm_num [trunc] at h ⊢
  rw [h]
  norm_num

/-- C1 (amended): for every frame-space box `(x, y, w, h)` and frame size
`W x H`, `proc_face_detect` yields `x0 = max(0, trunc(x - 0.1*w))`,
`y0 = max(0, trunc(y - 0.1*h))`, `x1 = min(W, trunc(x + w + 0.1*w))` and
`y1 = min(H, trunc(y + h + 0.1*h))`: every side gets a margin of 10%, the bottom
edge no more than that.  The box `{x:10, y:10, w:80, h:80}` in a 200 x 200
frame yields `x0 = 2, y0 = 2, x1 = 98, y1 = 98`. -/
theorem proc_face_detect_crop (x y w h : ℚ) (W H : ℤ) :
    proc_face_detect (x, y, w, h) (W : ℚ) (H : ℚ)
        = (((max 0 (trunc (x - 0.1 * w)) : ℤ) : ℚ), ((max 0 (trunc (y - 0.1 * h)) : ℤ) : ℚ),
            ((min W (trunc (x + w + 0.1 * w)) : ℤ) : ℚ),
            ((min H (trunc (y + h + 0.1 * h)) : ℤ) : ℚ)) ∧
      proc_face_detect (10, 10, 80, 80) 200 200 = (2, 2, 98, 98) := by
  refine ⟨proc_face_detect_eq x y w h W H, ?_⟩
  have h := proc_face_detect_eq 10 10 80 80 200 200
  norm_num [trunc] at h ⊢
  rw [h]

/-- C2 (as stated, refuted): the box `{x:300, y:10, w:10, h:10}` has `w ≥ 0` and
`h ≥ 0`, the frame is 200 x 200, and the output has `x0 = 299 > x1 = 200`. -/
theorem proc_face_detect_box_outside_frame :
    (0 : ℚ) ≤ 10 ∧ (0 : ℤ) ≤ 200 ∧
      proc_face_detect (300, 10, 10, 10) 200 200 = (299, 9, 200, 21) ∧
      ¬ ((proc_face_detect (300, 10, 10, 10) 200 200).1
          ≤ (proc_face_detect (300, 10, 10, 10) 200 200).2.2.1) := by
  have h := proc_face_detect_eq 300 10 10 10 200 200
  norm_num [trunc] at h ⊢
  rw [h]
  norm_num

/-- C2 (amended): for every box with `w ≥ 0`, `h ≥ 0` and every frame size
`W ≥ 0`, `H ≥ 0`, the output satisfies `0 ≤ x0`, `x1 ≤ W`, `0 ≤ y0`, `y1 ≤ H`;
`x0 ≤ x1` holds exactly when the expanded box meets the frame horizontally
(`-1 < x + w + 0.1*w` and `x - 0.1*w < W + 1`) and then `0 ≤ x0 ≤ x1 ≤ W`;
likewise `y0 ≤ y1` holds exactly when `-1 < y + h + 0.1*h` and
`y - 0.1*h < H + 1`. -/
theorem proc_face_detect_clamped (x y w h : ℚ) (W H : ℤ) (hw : 0 ≤ w) (hh : 0 ≤ h)
    (hW : 0 ≤ W) (hH : 0 ≤ H) :
    0 ≤ (proc_face_detect (x, y, w, h) W H).1 ∧
      (proc_face_detect (x, y, w, h) W H).2.2.1 ≤ W ∧
      0 ≤ (proc_face_detect (x, y, w, h) W H).2.1 ∧
      (proc_face_detect (x, y, w, h) W H).2.2.2 ≤ H ∧
      ((proc_face_detect (x, y, w, h) W H).1 ≤ (proc_face_detect (x, y, w, h) W H).2.2.1
        ↔ -1 < x + w + 0.1 * w ∧ x - 0.1 * w < W + 1) ∧
      ((proc_face_detect (x, y, w, h) W H).2.1 ≤ (proc_face_detect (x, y, w, h) W H).2.2.2
        ↔ -1 < y + h + 0.1 * h ∧ y - 0.1 * h < H + 1) := by
  rw [proc_face_detect_eq]
  have hx : trunc (x - 0.1 * w) ≤ trunc (x + w + 0.1 * w) :=
    trunc_mono (by linarith)
  have hy : trunc (y - 0.1 * h) ≤ trunc (y + h + 0.1 * h) :=
    trunc_mono (by linarith)
  dsimp only
  refine ⟨?_, ?_, ?_, ?_, ?_, ?_⟩
  · exact_mod_cast le_max_left (0 : ℤ) _
  · exact_mod_cast min_le_left W _
  · exact_mod_cast le_max_left (0 : ℤ) _
  · exact_mod_cast min_le_left H _
  · simp only [Int.cast_le, max_le_iff, le_min_iff,
      ← trunc_nonneg_iff, ← trunc_le_iff _ W hW]
    constructor
    · rintro ⟨⟨-, h2⟩, h3, -⟩; exact ⟨h3, h2⟩
    · rintro ⟨h2, h3⟩; exact ⟨⟨hW, h3⟩, h2, hx⟩
  · simp only [Int.cast_le, max_le_iff, le_min_iff,
      ← trunc_nonneg_iff, ← trunc_le_iff _ H hH]
    constructor
    · rintro ⟨⟨-, h2⟩, h3, -⟩; exact ⟨h3, h2⟩
    · rintro ⟨h2, h3⟩; exact ⟨⟨hH, h3⟩, h2, hy⟩

/-- Witness for C2 (amended): the box `{x:10, y:10, w:80, h:80}` in a 200 x 200
frame. -/
theorem proc_face_detect_clamped_witness :
    0 ≤ (proc_face_detect (10, 10, 80, 80) (200 : ℤ) (200 : ℤ)).1 ∧
      (proc_face_detect (10, 10, 80, 80) (200 : ℤ) (200 : ℤ)).2.2.1 ≤ (200 : ℤ) ∧
      0 ≤ (proc_face_detect (10, 10, 80, 80) (200 : ℤ) (200 : ℤ)).2.1 ∧
      (proc_face_detect (10, 10, 80, 80) (200 : ℤ) (200 : ℤ)).2.2.2 ≤ (200 : ℤ) ∧
      ((proc_face_detect (10, 10, 80, 80) (200 : ℤ) (200 : ℤ)).1
          ≤ (proc_face_detect (10, 10, 80, 80) (200 : ℤ) (200 : ℤ)).2.2.1
        ↔ -1 < (10 : ℚ) + 80 + 0.1 * 80 ∧ (10 : ℚ) - 0.1 * 80 < (200 : ℤ) + 1) ∧
      ((proc_face_detect (10, 10, 80, 80) (200 : ℤ) (200 : ℤ)).2.1
          ≤ (proc_face_detect (10, 10, 80, 80) (200 : ℤ) (200 : ℤ)).2.2.2
        ↔ -1 < (10 : ℚ) + 80 + 0.1 * 80 ∧ (10 : ℚ) - 0.1 * 80 < (200 : ℤ) + 1) :=
  proc_face_detect_clamped 10 10 80 80 200 200 (by norm_num) (by norm_num) (by decide)
    (by decide)

/-! ## Logit transform -/

theorem float_0_9999999_eq : float_0_9999999 = 1 - 1 / 2 ^ 23 := by
  unfold float_0_9999999; norm_num

/-- The value `logit` feeds to the logarithm is `c / (1 - c)` for the clamped
argument `c`; the upper bound of the clamp is the float `1 - 2^-23`. -/
theorem logit_eq_clamp (ln : ℚ → ℚ) (p : ℚ) :
    logit ln p
      = ln (clamp 0.0000001 (1 - 1 / 2 ^ 23) p / (1 - clamp 0.0000001 (1 - 1 / 2 ^ 23) p))
          / 16 := by
  unfold logit clamp
  rw [float_0_9999999_eq]
  by_cases h1 : p ≥ 1 - 1 / 2 ^ 23
  · have h2 : min p (1 - 1 / 2 ^ 23) = 1 - 1 / 2 ^ 23 := min_eq_right h1
    simp only [h1, if_true, h2]
    rw [max_eq_right (by norm_num)]
  · by_cases h3 : p ≤ 0.0000001
    · have h2 : min p (1 - 1 / 2 ^ 23) = p := min_eq_left (le_of_lt (not_le.mp h1))
      simp only [h1, if_false, h3, if_true, h2]
      rw [max_eq_left h3]
    · have h2 : min p (1 - 1 / 2 ^ 23) = p := min_eq_left (le_of_lt (not_le.mp h1))
      simp only [h1, if_false, h3, h2]
      rw [max_eq_right (le_of_lt (not_le.mp h3))]

/-- The value of `logit` at 0.5, the logarithm of 1 being 0. -/
theorem logit_half (ln : ℚ → ℚ) (hln : ln 1 = 0) : logit ln 0.5 = 0 := by
  have e : ((0.5 : ℚ) / (1 - 0.5)) = 1 := by norm_num
  have c1 : ¬ ((0.5 : ℚ) ≥ float_0_9999999) := by
    unfold float_0_9999999; norm_num
  have c2 : ¬ ((0.5 : ℚ) ≤ 0.0000001) := by norm_num
  simp only [logit, c1, c2, if_false, e, hln, zero_div]

/-- C7 (as stated, refuted): at `p = 1` the code clamps to the float
`0.9999999f = 1 - 2^-23` and hands `8388607` to the logarithm, while the stated
clamp to `[1e-7, 1 - 1e-7]` would hand it `9999999`; for every logarithm that
tells these two numbers apart the stated formula fails at `p = 1`. -/
theorem logit_upper_clamp_not_decimal :
    logit (fun q => q) 1 = 8388607 / 16 ∧
      clamp 0.0000001 (1 - 0.0000001) 1 / (1 - clamp 0.0000001 (1 - 0.0000001) 1) = 9999999 ∧
      ∀ ln : ℚ → ℚ, ln 8388607 ≠ ln 9999999 →
        logit ln 1
          ≠ ln (clamp 0.0000001 (1 - 0.0000001) 1 / (1 - clamp 0.0000001 (1 - 0.0000001) 1))
              / 16 := by
  have hc : clamp 0.0000001 (1 - 1 / 2 ^ 23) 1 / (1 - clamp 0.0000001 (1 - 1 / 2 ^ 23) 1)
      = 8388607 := by
    unfold clamp
    rw [min_eq_right (by norm_num), max_eq_right (by norm_num)]
    norm_num
  have hd : clamp 0.0000001 (1 - 0.0000001) 1 / (1 - clamp 0.0000001 (1 - 0.0000001) 1)
      = 9999999 := by
    unfold clamp
    rw [min_eq_right (by norm_num), max_eq_right (by norm_num)]
    norm_num
  refine ⟨?_, hd, ?_⟩
  · rw [logit_eq_clamp, hc]
  · intro ln hne heq
    rw [logit_eq_clamp, hc, hd] at heq
    exact hne (by linarith)

/-- C7 (amended): for every `p`, `logit(p) = ln(c / (1 - c)) / 16` where `c` is
`p` clamped to `[1e-7, 1 - 2^-23]`, the upper bound being the float value of
the literal `0.9999999f`; the division and the logarithm are defined
(`1 - c ≠ 0`, `c / (1 - c) > 0`); `logit(p) = logit(1e-7)` for `p ≤ 1e-7`;
`logit(p) = logit(1 - 2^-23)` for `p ≥ 1 - 2^-23`, in particular
`logit(p) = logit(1 - 1e-7)` for `p ≥ 1 - 1e-7`; and `logit(0.5) = 0`, the
logarithm of 1 being 0. -/
theorem logit_spec (ln : ℚ → ℚ) (p : ℚ) :
    logit ln p
        = ln (clamp 0.0000001 (1 - 1 / 2 ^ 23) p / (1 - clamp 0.0000001 (1 - 1 / 2 ^ 23) p))
            / 16 ∧
      1 - clamp 0.0000001 (1 - 1 / 2 ^ 23) p ≠ 0 ∧
      0 < clamp 0.0000001 (1 - 1 / 2 ^ 23) p / (1 - clamp 0.0000001 (1 - 1 / 2 ^ 23) p) ∧
      (p ≤ 0.0000001 → logit ln p = logit ln 0.0000001) ∧
      (p ≥ 1 - 1 / 2 ^ 23 → logit ln p = logit ln (1 - 1 / 2 ^ 23)) ∧
      (p ≥ 1 - 0.0000001 → logit ln p = logit ln (1 - 0.0000001)) ∧
      (ln 1 = 0 → logit ln 0.5 = 0) := by
  have hlo : (0.0000001 : ℚ) ≤ clamp 0.0000001 (1 - 1 / 2 ^ 23) p := le_max_left _ _
  have hhi : clamp 0.0000001 (1 - 1 / 2 ^ 23) p ≤ 1 - 1 / 2 ^ 23 :=
    max_le (by norm_num) (min_le_right _ _)
  have hpos : (0 : ℚ) < 1 - clamp 0.0000001 (1 - 1 / 2 ^ 23) p := by
    have : (0 : ℚ) < 1 / 2 ^ 23 := by norm_num
    linarith
  have hcpos : (0 : ℚ) < clamp 0.0000001 (1 - 1 / 2 ^ 23) p :=
    lt_of_lt_of_le (by norm_num) hlo
  have htop : ∀ q : ℚ, q ≥ 1 - 1 / 2 ^ 23 →
      clamp 0.0000001 (1 - 1 / 2 ^ 23) q = 1 - 1 / 2 ^ 23 := by
    intro q hq
    unfold clamp
    rw [min_eq_right hq, max_eq_right (by norm_num)]
  have hbot : ∀ q : ℚ, q ≤ 0.0000001 → clamp 0.0000001 (1 - 1 / 2 ^ 23) q = 0.0000001 := by
    intro q hq
    unfold clamp
    rw [min_eq_left (le_trans hq (by norm_num)), max_eq_left hq]
  have hdec : (1 : ℚ) - 1 / 2 ^ 23 ≤ 1 - 0.0000001 := by norm_num
  refine ⟨logit_eq_clamp ln p, ne_of_gt hpos, div_pos hcpos hpos, ?_, ?_, ?_, logit_half ln⟩
  · intro hp
    rw [logit_eq_clamp, logit_eq_clamp ln 0.0000001, hbot p hp, hbot _ le_rfl]
  · intro hp
    rw [logit_eq_clamp, logit_eq_clamp ln (1 - 1 / 2 ^ 23), htop p hp, htop _ le_rfl]
  · intro hp
    rw [logit_eq_clamp, logit_eq_clamp ln (1 - 0.0000001), htop p (le_trans hdec hp),
      htop _ hdec]

/-- Witness for C7 (amended): with the function `q ↦ q - 1` in the place of the
logarithm (it maps 1 to 0), `logit 0.5 = 0`. -/
theorem logit_spec_witness : logit (fun q => q - 1) 0.5 = 0 :=
  (logit_spec (fun q => q - 1) 0.5).2.2.2.2.2.2 (by norm_num)

/-! ## Face selection -/

theorem faces_loop_cons (cx cy : ℚ) (f : FaceRow) (rest : List FaceRow) (row : ℤ) (s : ℚ)
    (b : ℤ) :
    faces_loop cx cy (f :: rest) row (s, b)
      = if b = -1 ∨ face_distance cx cy f < s then
          faces_loop cx cy rest (row + 1) (face_distance cx cy f, row)
        else faces_loop cx cy rest (row + 1) (s, b) := by
  have e : get_distance_squared cx cy (f.c0 + f.c2 / 2) (f.c1 + f.c3 / 2)
      = face_distance cx cy f := by
    unfold get_distance_squared face_distance; ring
  simp only [faces_loop, e]

/-- Invariant of the selection loop once a candidate is held: either no later
row is strictly closer and the state is kept, or the state is the first later
row of least distance, which is strictly closer than the candidate held. -/
theorem faces_loop_spec (cx cy : ℚ) (rest : List FaceRow) :
    ∀ (row : ℤ) (s : ℚ) (b : ℤ), 0 ≤ row → b ≠ -1 →
      (faces_loop cx cy rest row (s, b) = (s, b) ∧
          ∀ (j : ℕ) (f : FaceRow), rest[j]? = some f → s ≤ face_distance cx cy f) ∨
        ∃ (k : ℕ) (fk : FaceRow), rest[k]? = some fk ∧
          faces_loop cx cy rest row (s, b) = (face_distance cx cy fk, row + k) ∧
          face_distance cx cy fk < s ∧
          (∀ (j : ℕ) (f : FaceRow), rest[j]? = some f →
            face_distance cx cy fk ≤ face_distance cx cy f) ∧
          ∀ (j : ℕ) (f : FaceRow), j < k → rest[j]? = some f →
            face_distance cx cy fk < face_distance cx cy f := by
  induction rest with
  | nil =>
    intro row s b _ _
    left
    exact ⟨rfl, fun j f hj => by simp at hj⟩
  | cons g tl ih =>
    intro row s b hrow hb
    rw [faces_loop_cons]
    by_cases hlt : face_distance cx cy g < s
    · rw [if_pos (Or.inr hlt)]
      have hrow1 : (0 : ℤ) ≤ row + 1 := by omega
      have hrow2 : row ≠ -1 := by omega
      rcases ih (row + 1) (face_distance cx cy g) row hrow1 hrow2 with
        ⟨hres, hall⟩ | ⟨k, fk, hk, hres, hkl, hall, hfirst⟩
      · right
        refine ⟨0, g, by simp, ?_, hlt, ?_, ?_⟩
        · rw [hres]; simp
        · intro j f hj
          cases j with
          | zero => simp at hj; rw [hj]
          | succ j => exact hall j f (by simpa using hj)
        · intro j f hj0 _; omega
      · right
        refine ⟨k + 1, fk, by simpa using hk, ?_, lt_trans hkl hlt, ?_, ?_⟩
        · rw [hres]; push_cast; congr 1; ring
        · intro j f hj
          cases j with
          | zero => simp at hj; rw [← hj]; exact le_of_lt hkl
          | succ j => exact hall j f (by simpa using hj)
        · intro j f hjk hj
          cases j with
          | zero => simp at hj; rw [← hj]; exact hkl
          | succ j => exact hfirst j f (by omega) (by simpa using hj)
    · have hcond : ¬ (b = -1 ∨ face_distance cx cy g < s) := by
        rintro (h | h)
        · exact hb h
        · exact hlt h
      rw [if_neg hcond]
      have hrow1 : (0 : ℤ) ≤ row + 1 := by omega
      rcases ih (row + 1) s b hrow1 hb with
        ⟨hres, hall⟩ | ⟨k, fk, hk, hres, hkl, hall, hfirst⟩
      · left
        refine ⟨hres, ?_⟩
        intro j f hj
        cases j with
        | zero => simp at hj; rw [← hj]; exact not_lt.mp hlt
        | succ j => exact hall j f (by simpa using hj)
      · right
        refine ⟨k + 1, fk, by simpa using hk, ?_, hkl, ?_, ?_⟩
        · rw [hres]; push_cast; congr 1; ring
        · intro j f hj
          cases j with
          | zero => simp at hj; rw [← hj]; exact le_of_lt (lt_of_lt_of_le hkl (not_lt.mp hlt))
          | succ j => exact hall j f (by simpa using hj)
        · intro j f hjk hj
          cases j with
          | zero => simp at hj; rw [← hj]; exact lt_of_lt_of_le hkl (not_lt.mp hlt)
          | succ j => exact hfirst j f (by omega) (by simpa using hj)

/-- The selected row is the first row of least distance to the centre the code
uses. -/
theorem selected_row_first_min (image : Mat) (faces : List FaceRow) (hne : faces ≠ []) :
    ∃ (r : ℕ) (fr : FaceRow), r < faces.length ∧ faces[r]? = some fr ∧
      get_center_weighted_faces_row image faces = (r : ℤ) ∧
      (∀ (j : ℕ) (f : FaceRow), faces[j]? = some f →
        face_distance (code_center image).1 (code_center image).2 fr
          ≤ face_distance (code_center image).1 (code_center image).2 f) ∧
      ∀ (j : ℕ) (f : FaceRow), j < r → faces[j]? = some f →
        face_distance (code_center image).1 (code_center image).2 fr
          < face_distance (code_center image).1 (code_center image).2 f := by
  cases faces with
  | nil => exact absurd rfl hne
  | cons g tl =>
    unfold get_center_weighted_faces_row code_center
    dsimp only
    rw [faces_loop_cons, if_pos (Or.inl rfl)]
    rcases faces_loop_spec _ _ tl (0 + 1) (face_distance _ _ g) 0 (by norm_num) (by norm_num) with
      ⟨hres, hall⟩ | ⟨k, fk, hk, hres, hkl, hall, hfirst⟩
    · refine ⟨0, g, by simp, by simp, ?_, ?_, ?_⟩
      · rw [hres]; simp
      · intro j f hj
        cases j with
        | zero => simp at hj; rw [hj]
        | succ j => exact hall j f (by simpa using hj)
      · intro j f hj0 _; omega
    · have hklen : k < tl.length := (List.getElem?_eq_some_iff.mp hk).1
      refine ⟨k + 1, fk, by simpa using hklen, by simpa using hk, ?_, ?_, ?_⟩
      · rw [hres]; push_cast; ring
      · intro j f hj
        cases j with
        | zero => simp at hj; rw [← hj]; exact le_of_lt hkl
        | succ j => exact hall j f (by simpa using hj)
      · intro j f hjk hj
        cases j with
        | zero => simp at hj; rw [← hj]; exact hkl
        | succ j => exact hfirst j f (by omega) (by simpa using hj)

/-- C3: `get_center_weighted_faces_row` returns `-1` ("none") for an empty
candidate set; for a non-empty set of `n` rows it returns an index `r`,
`0 ≤ r < n`, whose squared distance is at most that of every row and strictly
below that of every earlier row (the first minimal candidate; a tie never
replaces an earlier row); for candidates at squared distances `[5, 2, 2]` it
returns 1. -/
theorem get_center_weighted_faces_row_spec (image : Mat) (faces : List FaceRow) :
    (faces = [] → get_center_weighted_faces_row image faces = -1) ∧
      (faces ≠ [] →
        ∃ (r : ℕ) (fr : FaceRow), r < faces.length ∧ faces[r]? = some fr ∧
          get_center_weighted_faces_row image faces = (r : ℤ) ∧
          (∀ (j : ℕ) (f : FaceRow), faces[j]? = some f →
            face_distance (code_center image).1 (code_center image).2 fr
              ≤ face_distance (code_center image).1 (code_center image).2 f) ∧
          ∀ (j : ℕ) (f : FaceRow), j < r → faces[j]? = some f →
            face_distance (code_center image).1 (code_center image).2 fr
              < face_distance (code_center image).1 (code_center image).2 f) ∧
      (faces.map (face_distance (code_center image).1 (code_center image).2) = [5, 2, 2] →
        get_center_weighted_faces_row image faces = 1) := by
  refine ⟨?_, selected_row_first_min image faces, ?_⟩
  · intro h
    subst h
    rfl
  · intro h
    rcases faces with _ | ⟨f0, _ | ⟨f1, _ | ⟨f2, _ | ⟨f3, tl⟩⟩⟩⟩
    · simp at h
    · simp at h
    · simp at h
    · simp only [List.map_cons, List.map_nil, List.cons.injEq, and_true] at h
      obtain ⟨h0, h1, h2⟩ := h
      unfold get_center_weighted_faces_row
      unfold code_center at h0 h1 h2
      dsimp only at h0 h1 h2 ⊢
      rw [faces_loop_cons, if_pos (Or.inl rfl), h0, faces_loop_cons, h1,
        if_pos (Or.inr (by norm_num)), faces_loop_cons, h2, if_neg (by norm_num)]
      simp [faces_loop]
    · simp at h

/-- Witness for C3: in an image whose centre is `(0, 0)`, the boxes with
centres `(1, 2)`, `(1, 1)` and `(-1, 1)` lie at squared distances `[5, 2, 2]`;
row 1 is returned. -/
theorem get_center_weighted_faces_row_spec_witness :
    get_center_weighted_faces_row { rows := 0, cols := 0, data := [] }
      [{ c0 := 1, c1 := 2, c2 := 0, c3 := 0 }, { c0 := 1, c1 := 1, c2 := 0, c3 := 0 },
        { c0 := -1, c1 := 1, c2 := 0, c3 := 0 }] = 1 :=
  (get_center_weighted_faces_row_spec { rows := 0, cols := 0, data := [] }
    [{ c0 := 1, c1 := 2, c2 := 0, c3 := 0 }, { c0 := 1, c1 := 1, c2 := 0, c3 := 0 },
      { c0 := -1, c1 := 1, c2 := 0, c3 := 0 }]).2.2
    (by norm_num [face_distance, code_center])

/-- C4 (the code at the failing input): in a frame 200 wide and 100 high, with
candidate 0 centred on the frame centre `(100, 50)` and candidate 1 centred on
`(50, 100)`, the code measures distances to `(rows/2, cols/2) = (50, 100)` and
returns row 1, although row 0 is at squared distance 0 from the frame centre
and row 1 at squared distance 5000. -/
theorem get_center_weighted_faces_row_swapped_center :
    get_center_weighted_faces_row { rows := 100, cols := 200, data := [] }
        [{ c0 := 90, c1 := 40, c2 := 20, c3 := 20 }, { c0 := 40, c1 := 90, c2 := 20, c3 := 20 }]
        = 1 ∧
      code_center { rows := 100, cols := 200, data := [] } = (50, 100) ∧
      frame_center { rows := 100, cols := 200, data := [] } = (100, 50) ∧
      face_distance (frame_center { rows := 100, cols := 200, data := [] }).1
        (frame_center { rows := 100, cols := 200, data := [] }).2
        { c0 := 90, c1 := 40, c2 := 20, c3 := 20 } = 0 ∧
      face_distance (frame_center { rows := 100, cols := 200, data := [] }).1
        (frame_center { rows := 100, cols := 200, data := [] }).2
        { c0 := 40, c1 := 90, c2 := 20, c3 := 20 } = 5000 := by
  have e1 : Int.tdiv 100 2 = 50 := by decide
  have e2 : Int.tdiv 200 2 = 100 := by decide
  refine ⟨?_, ?_, ?_, ?_, ?_⟩
  · unfold get_center_weighted_faces_row
    dsimp only
    rw [e1, e2, faces_loop_cons, if_pos (Or.inl rfl), faces_loop_cons,
      if_pos (Or.inr (by norm_num [face_distance]))]
    simp [faces_loop]
  · simp only [code_center, e1, e2]; norm_num
  · norm_num [frame_center]
  · norm_num [face_distance, frame_center]
  · norm_num [face_distance, frame_center]

/-! ## The decoding loops -/

theorem heatmap_argmax_succ (hm : ℤ → ℚ) (n : ℕ) :
    heatmap_argmax hm (n + 1) = argmax_step hm (heatmap_argmax hm n) n := by
  unfold heatmap_argmax
  rw [List.range_succ, List.foldl_append]
  rfl

/-- Invariant of the argmax loop after `n` iterations: either no value seen
exceeds `-100` and the state is the initial one, or the state is the first
index of the greatest value seen, and that value exceeds `-100`. -/
theorem heatmap_argmax_spec (hm : ℤ → ℚ) (n : ℕ) :
    (heatmap_argmax hm n = (-100, -100) ∧ ∀ k : ℕ, k < n → hm k ≤ -100) ∨
      ∃ a : ℕ, a < n ∧ heatmap_argmax hm n = ((a : ℤ), hm a) ∧ -100 < hm a ∧
        (∀ k : ℕ, k < n → hm k ≤ hm a) ∧ ∀ k : ℕ, k < a → hm k < hm a := by
  induction n with
  | zero =>
    left
    exact ⟨rfl, fun k hk => absurd hk (Nat.not_lt_zero k)⟩
  | succ n ih =>
    rw [heatmap_argmax_succ]
    rcases ih with ⟨hst, hall⟩ | ⟨a, han, hst, hgt, hall, hfirst⟩
    · rw [hst]
      unfold argmax_step
      by_cases hc : hm n > -100
      · right
        refine ⟨n, Nat.lt_succ_self n, ?_, hc, ?_, ?_⟩
        · simp only [hc, if_true]
        · intro k hk
          rcases Nat.lt_succ_iff_lt_or_eq.mp hk with h | h
          · exact le_of_lt (lt_of_le_of_lt (hall k h) hc)
          · rw [h]
        · intro k hk
          exact lt_of_le_of_lt (hall k hk) hc
      · left
        refine ⟨by simp only [hc, if_false], ?_⟩
        intro k hk
        rcases Nat.lt_succ_iff_lt_or_eq.mp hk with h | h
        · exact hall k h
        · rw [h]; exact not_lt.mp hc
    · rw [hst]
      unfold argmax_step
      by_cases hc : hm n > hm a
      · right
        refine ⟨n, Nat.lt_succ_self n, ?_, lt_trans hgt hc, ?_, ?_⟩
        · simp only [hc, if_true]
        · intro k hk
          rcases Nat.lt_succ_iff_lt_or_eq.mp hk with h | h
          · exact le_of_lt (lt_of_le_of_lt (hall k h) hc)
          · rw [h]
        · intro k hk
          exact lt_of_le_of_lt (hall k hk) hc
      · right
        refine ⟨a, Nat.lt_succ_of_lt han, ?_, hgt, ?_, hfirst⟩
        · simp only [hc, if_false]
        · intro k hk
          rcases Nat.lt_succ_iff_lt_or_eq.mp hk with h | h
          · exact hall k h
          · rw [h]; exact not_lt.mp hc

/-- The argmax loop returns the first index of the greatest value, when that
value exceeds `-100`. -/
theorem heatmap_argmax_first_max (hm : ℤ → ℚ) (n a : ℕ) (ha : a < n) (hgt : -100 < hm a)
    (hmax : ∀ k : ℕ, k < n → hm k ≤ hm a) (hfirst : ∀ k : ℕ, k < a → hm k < hm a) :
    heatmap_argmax hm n = ((a : ℤ), hm a) := by
  rcases heatmap_argmax_spec hm n with ⟨-, hall⟩ | ⟨b, hbn, hst, -, hall, hbfirst⟩
  · exact absurd (hall a ha) (not_le.mpr hgt)
  · have hab : a = b := by
      rcases Nat.lt_trichotomy a b with h | h | h
      · exact absurd (hmax b hbn) (not_le.mpr (hbfirst a h))
      · exact h
      · exact absurd (hall a ha) (not_le.mpr (hfirst b h))
    rw [hab]
    exact hst

/-- A decoding loop over `n` landmarks stores the pair computed for landmark
`i` at indices `2 * i` and `2 * i + 1`, leaves the entries from `2 * n` on and
the other fields as they were. -/
theorem store_loop_spec (g : ℕ → ℚ × ℚ) (fd : FaceData) (n : ℕ) :
    (∀ i : ℕ, i < n →
        ((List.range n).foldl (fun d l => store_landmark d l (g l)) fd).landmark_coords (2 * i)
            = (g i).1 ∧
          ((List.range n).foldl (fun d l => store_landmark d l (g l)) fd).landmark_coords
            (2 * i + 1) = (g i).2) ∧
      (∀ k : ℕ, 2 * n ≤ k →
        ((List.range n).foldl (fun d l => store_landmark d l (g l)) fd).landmark_coords k
          = fd.landmark_coords k) ∧
      ((List.range n).foldl (fun d l => store_landmark d l (g l)) fd).face_coords
        = fd.face_coords ∧
      ((List.range n).foldl (fun d l => store_landmark d l (g l)) fd).face_detected
        = fd.face_detected := by
  induction n with
  | zero =>
    exact ⟨fun i hi => absurd hi (Nat.not_lt_zero i), fun k _ => rfl, rfl, rfl⟩
  | succ n ih =>
    obtain ⟨ih1, ih2, ih3, ih4⟩ := ih
    rw [List.range_succ, List.foldl_append]
    simp only [List.foldl_cons, List.foldl_nil, store_landmark]
    refine ⟨?_, ?_, ih3, ih4⟩
    · intro i hi
      rcases Nat.lt_succ_iff_lt_or_eq.mp hi with h | h
      · have n1 : 2 * i ≠ 2 * n + 1 := by omega
        have n2 : 2 * i ≠ 2 * n := by omega
        have n3 : 2 * i + 1 ≠ 2 * n + 1 := by omega
        have n4 : 2 * i + 1 ≠ 2 * n := by omega
        rw [Function.update_noteq n1, Function.update_noteq n2, Function.update_noteq n3,
          Function.update_noteq n4]
        exact ih1 i h
      · subst h
        have n1 : 2 * i ≠ 2 * i + 1 := by omega
        rw [Function.update_noteq n1, Function.update_same, Function.update_same]
        exact ⟨rfl, rfl⟩
    · intro k hk
      have n1 : k ≠ 2 * n + 1 := by omega
      have n2 : k ≠ 2 * n := by omega
      rw [Function.update_noteq n1, Function.update_noteq n2]
      exact ih2 k (by omega)

/-! ## Heatmap decoding -/

/-- The pair computed for a landmark whose confidence channel has its first
maximum at index `a`, that maximum exceeding `-100`. -/
theorem heatmap_landmark_eq (ln : ℚ → ℚ) (heatmaps : ℤ → ℚ) (x0 y0 : ℤ) (scale_x scale_y : ℚ)
    (i a : ℕ) (ha : a < 784) (hgt : -100 < heatmaps (784 * (i : ℤ) + (a : ℤ)))
    (hmax : ∀ k : ℕ, k < 784 →
      heatmaps (784 * (i : ℤ) + (k : ℤ)) ≤ heatmaps (784 * (i : ℤ) + (a : ℤ)))
    (hfirst : ∀ k : ℕ, k < a →
      heatmaps (784 * (i : ℤ) + (k : ℤ)) < heatmaps (784 * (i : ℤ) + (a : ℤ))) :
    heatmap_landmark ln heatmaps x0 y0 scale_x scale_y i
      = ((y0 : ℚ) + scale_x * (223 * ((a / 28 : ℕ) : ℚ) / 27
            + (⌊223 * logit ln (heatmaps (66 * 784 + 784 * (i : ℤ) + (a : ℤ))) + 0.1⌋ : ℤ)),
          (x0 : ℚ) + scale_y * (223 * ((a % 28 : ℕ) : ℚ) / 27
            + (⌊223 * logit ln (heatmaps (2 * 66 * 784 + 784 * (i : ℤ) + (a : ℤ))) + 0.1⌋ : ℤ))) := by
  have hst := heatmap_argmax_first_max (fun j => heatmaps (784 * (i : ℤ) + j)) 784 a ha hgt
    hmax hfirst
  have hdiv : Int.tdiv (a : ℤ) 28 = ((a / 28 : ℕ) : ℤ) := by
    rw [Int.tdiv_eq_ediv (by omega) (by norm_num)]
    exact (Int.natCast_div a 28).symm
  have hmod : Int.tmod (a : ℤ) 28 = ((a % 28 : ℕ) : ℤ) := by
    rw [Int.tmod_eq_emod (by omega) (by norm_num)]
    exact (Int.natCast_mod a 28).symm
  unfold heatmap_landmark
  simp only [hst, cast_int_intCast, hdiv, hmod, Int.cast_natCast, mul_div_assoc]

/-- C5: for every landmark `i` in 0..65 whose confidence channel has a value
above `-100`, with `a` the first index of the maximum of that channel,
`row = a / 28`, `col = a % 28`,
`offX = floor(223 * logit(h[66*784 + 784*i + a]) + 0.1)` and
`offY = floor(223 * logit(h[2*66*784 + 784*i + a]) + 0.1)`, `proc_heatmaps`
leaves `landmark_coords[2i] = y0 + scale_x * (223 * row / 27 + offX)` and
`landmark_coords[2i+1] = x0 + scale_y * (223 * col / 27 + offY)`.  For a peak at
`(row = 5, col = 10)` with offset-channel value 0.5 (and `ln 1 = 0`) both
offsets are 0 and the result is
`(y0 + scale_x * 223*5/27, x0 + scale_y * 223*10/27)`. -/
theorem proc_heatmaps_decode (ln : ℚ → ℚ) (heatmaps : ℤ → ℚ) (x0 y0 : ℤ)
    (scale_x scale_y : ℚ) (face_data : FaceData) (i a : ℕ) (hi : i < 66) (ha : a < 784)
    (hgt : -100 < heatmaps (784 * (i : ℤ) + (a : ℤ)))
    (hmax : ∀ k : ℕ, k < 784 →
      heatmaps (784 * (i : ℤ) + (k : ℤ)) ≤ heatmaps (784 * (i : ℤ) + (a : ℤ)))
    (hfirst : ∀ k : ℕ, k < a →
      heatmaps (784 * (i : ℤ) + (k : ℤ)) < heatmaps (784 * (i : ℤ) + (a : ℤ))) :
    ((proc_heatmaps ln heatmaps x0 y0 scale_x scale_y face_data).landmark_coords (2 * i)
        = (y0 : ℚ) + scale_x * (223 * ((a / 28 : ℕ) : ℚ) / 27
            + (⌊223 * logit ln (heatmaps (66 * 784 + 784 * (i : ℤ) + (a : ℤ))) + 0.1⌋ : ℤ)) ∧
      (proc_heatmaps ln heatmaps x0 y0 scale_x scale_y face_data).landmark_coords (2 * i + 1)
        = (x0 : ℚ) + scale_y * (223 * ((a % 28 : ℕ) : ℚ) / 27
            + (⌊223 * logit ln (heatmaps (2 * 66 * 784 + 784 * (i : ℤ) + (a : ℤ))) + 0.1⌋ : ℤ))) ∧
      (a = 5 * 28 + 10 → ln 1 = 0 →
        heatmaps (66 * 784 + 784 * (i : ℤ) + (a : ℤ)) = 0.5 →
        heatmaps (2 * 66 * 784 + 784 * (i : ℤ) + (a : ℤ)) = 0.5 →
        (⌊223 * logit ln (heatmaps (66 * 784 + 784 * (i : ℤ) + (a : ℤ))) + 0.1⌋ : ℤ) = 0 ∧
        (⌊223 * logit ln (heatmaps (2 * 66 * 784 + 784 * (i : ℤ) + (a : ℤ))) + 0.1⌋ : ℤ) = 0 ∧
        (proc_heatmaps ln heatmaps x0 y0 scale_x scale_y face_data).landmark_coords (2 * i)
          = (y0 : ℚ) + scale_x * (223 * 5 / 27) ∧
        (proc_heatmaps ln heatmaps x0 y0 scale_x scale_y face_data).landmark_coords (2 * i + 1)
          = (x0 : ℚ) + scale_y * (223 * 10 / 27)) := by
  have hloop := (store_loop_spec (heatmap_landmark ln heatmaps x0 y0 scale_x scale_y)
    face_data 66).1 i hi
  have hval := heatmap_landmark_eq ln heatmaps x0 y0 scale_x scale_y i a ha hgt hmax hfirst
  have h1 : (proc_heatmaps ln heatmaps x0 y0 scale_x scale_y face_data).landmark_coords (2 * i)
      = (y0 : ℚ) + scale_x * (223 * ((a / 28 : ℕ) : ℚ) / 27
          + (⌊223 * logit ln (heatmaps (66 * 784 + 784 * (i : ℤ) + (a : ℤ))) + 0.1⌋ : ℤ)) := by
    exact hloop.1.trans (congrArg Prod.fst hval)
  have h2 : (proc_heatmaps ln heatmaps x0 y0 scale_x scale_y face_data).landmark_coords
      (2 * i + 1)
      = (x0 : ℚ) + scale_y * (223 * ((a % 28 : ℕ) : ℚ) / 27
          + (⌊223 * logit ln (heatmaps (2 * 66 * 784 + 784 * (i : ℤ) + (a : ℤ))) + 0.1⌋ : ℤ)) := by
    exact hloop.2.trans (congrArg Prod.snd hval)
  refine ⟨⟨h1, h2⟩, ?_⟩
  intro hpeak hln hox hoy
  have hl : logit ln 0.5 = 0 := logit_half ln hln
  have hfl : (⌊(223 : ℚ) * 0 + 0.1⌋ : ℤ) = 0 := by norm_num
  rw [h1, h2, hox, hoy, hl, hfl, hpeak]
  norm_num

/-- Witness for C5: landmark 0 of a tensor whose confidence channel is 1 at
index 150 (`row = 5`, `col = 10`) and 0 elsewhere, both offset channels being
0.5 at that index; crop offset `(20, 30)`, scales 2 and 3. -/
theorem proc_heatmaps_decode_witness :
    (proc_heatmaps (fun q => q - 1)
        (fun k => if k = 150 then 1 else if k = 66 * 784 + 150 ∨ k = 2 * 66 * 784 + 150
          then 0.5 else 0)
        20 30 2 3
        { landmark_coords := fun _ => 0, face_coords := (0, 0, 0, 0), face_detected := true }
        ).landmark_coords (2 * 0) = ((30 : ℤ) : ℚ) + 2 * (223 * 5 / 27) ∧
      (proc_heatmaps (fun q => q - 1)
        (fun k => if k = 150 then 1 else if k = 66 * 784 + 150 ∨ k = 2 * 66 * 784 + 150
          then 0.5 else 0)
        20 30 2 3
        { landmark_coords := fun _ => 0, face_coords := (0, 0, 0, 0), face_detected := true }
        ).landmark_coords (2 * 0 + 1) = ((20 : ℤ) : ℚ) + 3 * (223 * 10 / 27) :=
  ((proc_heatmaps_decode (fun q => q - 1)
      (fun k => if k = 150 then 1 else if k = 66 * 784 + 150 ∨ k = 2 * 66 * 784 + 150
        then 0.5 else 0)
      20 30 2 3
      { landmark_coords := fun _ => 0, face_coords := (0, 0, 0, 0), face_detected := true }
      0 150 (by decide) (by decide) (by norm_num)
      (by
        intro k hk
        have hk1 : (k : ℤ) ≠ 66 * 784 + 150 := by omega
        have hk2 : (k : ℤ) ≠ 2 * 66 * 784 + 150 := by omega
        simp only [Nat.cast_zero, mul_zero, zero_add, Nat.cast_ofNat, hk1, hk2, or_self,
          if_false, if_true]
        split_ifs <;> norm_num)
      (by
        intro k hk
        have hk0 : (k : ℤ) ≠ 150 := by omega
        have hk1 : (k : ℤ) ≠ 66 * 784 + 150 := by omega
        have hk2 : (k : ℤ) ≠ 2 * 66 * 784 + 150 := by omega
        simp only [Nat.cast_zero, mul_zero, zero_add, Nat.cast_ofNat, hk0, hk1, hk2, or_self,
          if_false, if_true]
        norm_num)).2 (by norm_num) (by norm_num) (by norm_num) (by norm_num)).2.2

/-- C9 (as stated, refuted): for the tensor whose values are all `-100` no
value exceeds the initial `maxval`, so for landmark 0 the loop leaves
`argmax = -100`; then `x = -3`, `y = -16`, and the read at
`66*784 + 784*0 + argmax` lies below `66*784`, outside the x-offset plane. -/
theorem heatmap_argmax_sentinel_kept :
    (heatmap_argmax (fun j => (fun _ => (-100 : ℚ)) (784 * ((0 : ℕ) : ℤ) + j)) 784).1 = -100 ∧
      ¬ (0 ≤ (heatmap_argmax (fun j => (fun _ => (-100 : ℚ)) (784 * ((0 : ℕ) : ℤ) + j)) 784).1) ∧
      Int.tdiv (-100) 28 = -3 ∧ Int.tmod (-100) 28 = -16 ∧
      66 * 784 + 784 * ((0 : ℕ) : ℤ)
          + (heatmap_argmax (fun j => (fun _ => (-100 : ℚ)) (784 * ((0 : ℕ) : ℤ) + j)) 784).1
        < 66 * 784 := by
  have hst : heatmap_argmax (fun j => (fun _ => (-100 : ℚ)) (784 * ((0 : ℕ) : ℤ) + j)) 784
      = (-100, -100) := by
    rcases heatmap_argmax_spec (fun j => (fun _ => (-100 : ℚ)) (784 * ((0 : ℕ) : ℤ) + j)) 784
      with ⟨h, -⟩ | ⟨a, -, -, hgt, -, -⟩
    · exact h
    · exact absurd hgt (lt_irrefl _)
  rw [hst]
  refine ⟨rfl, by decide, by decide, by decide, by decide⟩

/-- C9 (amended): for every tensor and every landmark `i` in 0..65 whose
confidence channel holds a value above `-100`, the argmax found satisfies
`0 ≤ argmax < 784` (it is not the initial `-100`), `row` and `col` lie in
0..27, and the reads at `66*784 + 784*i + argmax` and
`2*66*784 + 784*i + argmax` fall inside the x-offset plane and the y-offset
plane of landmark `i`, within the `3*66*784` values of the tensor. -/
theorem heatmap_argmax_in_range (heatmaps : ℤ → ℚ) (i : ℕ) (hi : i < 66)
    (hex : ∃ k : ℕ, k < 784 ∧ -100 < heatmaps (784 * (i : ℤ) + (k : ℤ))) :
    0 ≤ (heatmap_argmax (fun j => heatmaps (784 * (i : ℤ) + j)) 784).1 ∧
      (heatmap_argmax (fun j => heatmaps (784 * (i : ℤ) + j)) 784).1 < 784 ∧
      (heatmap_argmax (fun j => heatmaps (784 * (i : ℤ) + j)) 784).1 ≠ -100 ∧
      0 ≤ Int.tdiv (heatmap_argmax (fun j => heatmaps (784 * (i : ℤ) + j)) 784).1 28 ∧
      Int.tdiv (heatmap_argmax (fun j => heatmaps (784 * (i : ℤ) + j)) 784).1 28 ≤ 27 ∧
      0 ≤ Int.tmod (heatmap_argmax (fun j => heatmaps (784 * (i : ℤ) + j)) 784).1 28 ∧
      Int.tmod (heatmap_argmax (fun j => heatmaps (784 * (i : ℤ) + j)) 784).1 28 ≤ 27 ∧
      66 * 784 + 784 * (i : ℤ)
        ≤ 66 * 784 + 784 * (i : ℤ)
          + (heatmap_argmax (fun j => heatmaps (784 * (i : ℤ) + j)) 784).1 ∧
      66 * 784 + 784 * (i : ℤ) + (heatmap_argmax (fun j => heatmaps (784 * (i : ℤ) + j)) 784).1
        < 66 * 784 + 784 * ((i : ℤ) + 1) ∧
      2 * 66 * 784 + 784 * (i : ℤ)
        ≤ 2 * 66 * 784 + 784 * (i : ℤ)
          + (heatmap_argmax (fun j => heatmaps (784 * (i : ℤ) + j)) 784).1 ∧
      2 * 66 * 784 + 784 * (i : ℤ)
          + (heatmap_argmax (fun j => heatmaps (784 * (i : ℤ) + j)) 784).1
        < 2 * 66 * 784 + 784 * ((i : ℤ) + 1) ∧
      2 * 66 * 784 + 784 * ((i : ℤ) + 1) ≤ 3 * 66 * 784 := by
  obtain ⟨k, hk, hkgt⟩ := hex
  rcases heatmap_argmax_spec (fun j => heatmaps (784 * (i : ℤ) + j)) 784
    with ⟨-, hall⟩ | ⟨a, ha, hst, -, -, -⟩
  · exact absurd (hall k hk) (not_le.mpr hkgt)
  · rw [hst]
    dsimp only
    have hdiv : Int.tdiv (a : ℤ) 28 = (a : ℤ) / 28 :=
      Int.tdiv_eq_ediv (by omega) (by norm_num)
    have hmod : Int.tmod (a : ℤ) 28 = (a : ℤ) % 28 :=
      Int.tmod_eq_emod (by omega) (by norm_num)
    rw [hdiv, hmod]
    refine ⟨?_, ?_, ?_, ?_, ?_, ?_, ?_, ?_, ?_, ?_, ?_, ?_⟩ <;> omega

/-- Witness for C9 (amended): the tensor whose values are all 0, landmark 0. -/
theorem heatmap_argmax_in_range_witness :
    0 ≤ (heatmap_argmax (fun j => (fun _ => (0 : ℚ)) (784 * ((0 : ℕ) : ℤ) + j)) 784).1 ∧
      (heatmap_argmax (fun j => (fun _ => (0 : ℚ)) (784 * ((0 : ℕ) : ℤ) + j)) 784).1 < 784 :=
  ⟨(heatmap_argmax_in_range (fun _ => (0 : ℚ)) 0 (by decide)
      ⟨0, by decide, by norm_num⟩).1,
    (heatmap_argmax_in_range (fun _ => (0 : ℚ)) 0 (by decide)
      ⟨0, by decide, by norm_num⟩).2.1⟩

/-! ## Direct regression decoding -/

/-- C6: for a flat output tensor whose 132 values all equal `v`, every crop
offset `(x0, y0)` and every scale pair, the loop of
`EfficientTracker::detect_landmarks` leaves, for every landmark `i` in 0..65,
`landmark_coords[2i] = 114 * v * scale_x + y0` and
`landmark_coords[2i+1] = 114 * v * scale_y + x0`: all 66 landmarks get the same
coordinate pair. -/
theorem regression_decode_flat (v : ℚ) (output_arr : ℤ → ℚ) (x0 y0 : ℤ)
    (scale_x scale_y : ℚ) (face_data : FaceData)
    (hflat : ∀ k : ℕ, k < 132 → output_arr (k : ℤ) = v) (i : ℕ) (hi : i < 66) :
    (regression_decode output_arr x0 y0 scale_x scale_y face_data).landmark_coords (2 * i)
        = 114 * v * scale_x + (y0 : ℚ) ∧
      (regression_decode output_arr x0 y0 scale_x scale_y face_data).landmark_coords (2 * i + 1)
        = 114 * v * scale_y + (x0 : ℚ) := by
  have hloop := (store_loop_spec (regression_landmark output_arr x0 y0 scale_x scale_y)
    face_data 66).1 i hi
  have e0 : output_arr (2 * (i : ℤ)) = v := by
    have := hflat (2 * i) (by omega)
    simpa using this
  have e1 : output_arr (2 * (i : ℤ) + 1) = v := by
    have := hflat (2 * i + 1) (by omega)
    simpa using this
  have hval : regression_landmark output_arr x0 y0 scale_x scale_y i
      = (114 * v * scale_x + (y0 : ℚ), 114 * v * scale_y + (x0 : ℚ)) := by
    unfold regression_landmark
    simp only [e0, e1, mul_comm v 114]
  exact ⟨hloop.1.trans (congrArg Prod.fst hval), hloop.2.trans (congrArg Prod.snd hval)⟩

/-- Witness for C6: the flat tensor of value 0.5, crop offset `(20, 30)`,
scales 2 and 3, landmark 7. -/
theorem regression_decode_flat_witness :
    (regression_decode (fun _ => 0.5) 20 30 2 3
        { landmark_coords := fun _ => 0, face_coords := (0, 0, 0, 0), face_detected := true }
        ).landmark_coords (2 * 7) = 114 * 0.5 * 2 + ((30 : ℤ) : ℚ) ∧
      (regression_decode (fun _ => 0.5) 20 30 2 3
        { landmark_coords := fun _ => 0, face_coords := (0, 0, 0, 0), face_detected := true }
        ).landmark_coords (2 * 7 + 1) = 114 * 0.5 * 3 + ((20 : ℤ) : ℚ) :=
  regression_decode_flat 0.5 (fun _ => 0.5) 20 30 2 3
    { landmark_coords := fun _ => 0, face_coords := (0, 0, 0, 0), face_detected := true }
    (fun _ _ => rfl) 7 (by decide)

/-- C10: in `predict` of an `EfficientTracker`, for a crop box with `x0 ≤ x1`
and `y0 ≤ y1` stored in `face_coords` and a model output whose 132 values lie
in `[0, 1]`, every decoded pair satisfies `y0 ≤ landmark_coords[2i] ≤ y1` and
`x0 ≤ landmark_coords[2i+1] ≤ x1`; the first component is
`y0 + output[2i+1] * (y1 - y0)` (vertical axis, from the second regressed
value) and the second is `x0 + output[2i] * (x1 - x0)` (horizontal axis). -/
theorem predict_landmarks_inside_crop (C : Collaborators) (image : Mat) (face_data : FaceData)
    (x0 y0 x1 y1 : ℤ) (hfc : face_data.face_coords = (x0, y0, x1, y1)) (hx : x0 ≤ x1)
    (hy : y0 ≤ y1)
    (hout : ∀ k : ℕ, k < 132 →
      0 ≤ C.landmark_model (C.crop image (x0, y0) (x1, y1)) (k : ℤ) ∧
        C.landmark_model (C.crop image (x0, y0) (x1, y1)) (k : ℤ) ≤ 1)
    (i : ℕ) (hi : i < 66) :
    ((y0 : ℚ) ≤ (predict_landmarks EfficientTracker C image face_data).1.landmark_coords (2 * i) ∧
      (predict_landmarks EfficientTracker C image face_data).1.landmark_coords (2 * i)
        ≤ (y1 : ℚ)) ∧
      ((x0 : ℚ)
          ≤ (predict_landmarks EfficientTracker C image face_data).1.landmark_coords (2 * i + 1) ∧
        (predict_landmarks EfficientTracker C image face_data).1.landmark_coords (2 * i + 1)
          ≤ (x1 : ℚ)) ∧
      (predict_landmarks EfficientTracker C image face_data).1.landmark_coords (2 * i)
        = (y0 : ℚ) + C.landmark_model (C.crop image (x0, y0) (x1, y1)) (2 * (i : ℤ) + 1)
            * ((y1 : ℚ) - (y0 : ℚ)) ∧
      (predict_landmarks EfficientTracker C image face_data).1.landmark_coords (2 * i + 1)
        = (x0 : ℚ) + C.landmark_model (C.crop image (x0, y0) (x1, y1)) (2 * (i : ℤ))
            * ((x1 : ℚ) - (x0 : ℚ)) := by
  have hloop := (store_loop_spec
    (regression_landmark (C.landmark_model (C.crop image (x0, y0) (x1, y1))) x0 y0
      (((y1 - y0 : ℤ) : ℚ) / ((114 : ℤ) : ℚ)) (((x1 - x0 : ℤ) : ℚ) / ((114 : ℤ) : ℚ)))
    face_data 66).1 i hi
  have hpred : (predict_landmarks EfficientTracker C image face_data).1
      = (List.range 66).foldl (fun d l => store_landmark d l
          (regression_landmark (C.landmark_model (C.crop image (x0, y0) (x1, y1))) x0 y0
            (((y1 - y0 : ℤ) : ℚ) / ((114 : ℤ) : ℚ)) (((x1 - x0 : ℤ) : ℚ) / ((114 : ℤ) : ℚ)) l))
          face_data := by
    simp only [predict_landmarks, detect_landmarks, EfficientTracker, hfc, regression_decode]
  have o0 := hout (2 * i) (by omega)
  have o1 := hout (2 * i + 1) (by omega)
  simp only [Nat.cast_mul, Nat.cast_ofNat, Nat.cast_add, Nat.cast_one] at o0 o1
  have hxq : (0 : ℚ) ≤ (x1 : ℚ) - (x0 : ℚ) := by
    have : (x0 : ℚ) ≤ (x1 : ℚ) := by exact_mod_cast hx
    linarith
  have hyq : (0 : ℚ) ≤ (y1 : ℚ) - (y0 : ℚ) := by
    have : (y0 : ℚ) ≤ (y1 : ℚ) := by exact_mod_cast hy
    linarith
  have e1 : (predict_landmarks EfficientTracker C image face_data).1.landmark_coords (2 * i)
      = (y0 : ℚ) + C.landmark_model (C.crop image (x0, y0) (x1, y1)) (2 * (i : ℤ) + 1)
          * ((y1 : ℚ) - (y0 : ℚ)) := by
    rw [hpred, hloop.1]
    unfold regression_landmark
    push_cast
    ring
  have e2 : (predict_landmarks EfficientTracker C image face_data).1.landmark_coords (2 * i + 1)
      = (x0 : ℚ) + C.landmark_model (C.crop image (x0, y0) (x1, y1)) (2 * (i : ℤ))
          * ((x1 : ℚ) - (x0 : ℚ)) := by
    rw [hpred, hloop.2]
    unfold regression_landmark
    push_cast
    ring
  refine ⟨⟨?_, ?_⟩, ⟨?_, ?_⟩, e1, e2⟩
  · rw [e1]; nlinarith [mul_nonneg o1.1 hyq]
  · rw [e1]; nlinarith [mul_nonneg (sub_nonneg.mpr o1.2) hyq]
  · rw [e2]; nlinarith [mul_nonneg o0.1 hxq]
  · rw [e2]; nlinarith [mul_nonneg (sub_nonneg.mpr o0.2) hxq]

/-- Witness for C10: the crop box `(10, 20, 110, 220)`, a model whose output
values are all 0.5, landmark 7. -/
theorem predict_landmarks_inside_crop_witness :
    (((20 : ℤ) : ℚ) ≤ (predict_landmarks EfficientTracker
          { ln := fun q => q - 1, resize := fun m _ _ => m, crop := fun m _ _ => m,
            face_detector_detect := fun _ => [], landmark_model := fun _ _ => 0.5,
            solve_rotation := fun d => d }
          { rows := 480, cols := 640, data := [] }
          { landmark_coords := fun _ => 0, face_coords := (10, 20, 110, 220),
            face_detected := true }).1.landmark_coords (2 * 7) ∧
      (predict_landmarks EfficientTracker
          { ln := fun q => q - 1, resize := fun m _ _ => m, crop := fun m _ _ => m,
            face_detector_detect := fun _ => [], landmark_model := fun _ _ => 0.5,
            solve_rotation := fun d => d }
          { rows := 480, cols := 640, data := [] }
          { landmark_coords := fun _ => 0, face_coords := (10, 20, 110, 220),
            face_detected := true }).1.landmark_coords (2 * 7) ≤ ((220 : ℤ) : ℚ)) :=
  (predict_landmarks_inside_crop
    { ln := fun q => q - 1, resize := fun m _ _ => m, crop := fun m _ _ => m,
      face_detector_detect := fun _ => [], landmark_model := fun _ _ => 0.5,
      solve_rotation := fun d => d }
    { rows := 480, cols := 640, data := [] }
    { landmark_coords := fun _ => 0, face_coords := (10, 20, 110, 220), face_detected := true }
    10 20 110 220 rfl (by decide) (by decide) (fun _ _ => by norm_num) 7 (by decide)).1

/-! ## The tracker -/

/-- When the detector returns at least one row, the row selected by
`detect_face` exists: the read of the `faces` matrix is inside it. -/
theorem faces_at_selected (image : Mat) (faces : List FaceRow) (hne : faces ≠ []) :
    ∃ f : FaceRow, faces_at faces (get_center_weighted_faces_row image faces) = some f := by
  obtain ⟨r, fr, -, hget, hres, -, -⟩ := selected_row_first_min image faces hne
  refine ⟨fr, ?_⟩
  unfold faces_at
  rw [hres, if_pos (Int.natCast_nonneg r), Int.toNat_natCast]
  exact hget

/-- The method `predict` always returns: no read falls outside the `faces`
matrix. -/
theorem predict_returns (T : Tracker) (C : Collaborators) (image : Mat) (face_data : FaceData)
    (filter : Option ((ℕ → ℚ) → ℕ → ℚ)) :
    ∃ r : FaceData × List Call, predict T C image face_data filter = some r := by
  unfold predict detect_face
  by_cases hne : C.face_detector_detect (C.resize image 114 114) = []
  · simp [hne]
  · obtain ⟨f, hf⟩ := faces_at_selected image _ hne
    have hlen : (C.face_detector_detect (C.resize image 114 114)).length > 0 :=
      List.length_pos.mpr hne
    simp only [hlen, if_true, hf]
    simp

/-- C8: when the face detector returns zero boxes, `predict` returns with
`face_detected = false` and with `landmark_coords` and `face_coords` exactly as
before the call; the only collaborator invoked is the face detector: the
landmark model, the filter and the pose solver are not invoked. -/
theorem predict_no_detection (T : Tracker) (C : Collaborators) (image : Mat)
    (face_data : FaceData) (filter : Option ((ℕ → ℚ) → ℕ → ℚ))
    (hzero : C.face_detector_detect (C.resize image 114 114) = []) :
    ∃ (r : FaceData) (calls : List Call),
      predict T C image face_data filter = some (r, calls) ∧
        r.face_detected = false ∧
        r.landmark_coords = face_data.landmark_coords ∧
        r.face_coords = face_data.face_coords ∧
        calls = [Call.face_detector] ∧
        Call.landmark_session ∉ calls ∧ Call.landmark_filter ∉ calls ∧
        Call.pose_solver ∉ calls := by
  refine ⟨{ face_data with face_detected := false }, [Call.face_detector], ?_, rfl, rfl, rfl,
    rfl, by decide, by decide, by decide⟩
  unfold predict detect_face
  simp [hzero]

/-- Witness for C8: a detector that finds no face, with a filter supplied. -/
theorem predict_no_detection_witness :
    ∃ (r : FaceData) (calls : List Call),
      predict EfficientTracker
          { ln := fun q => q - 1, resize := fun m _ _ => m, crop := fun m _ _ => m,
            face_detector_detect := fun _ => [], landmark_model := fun _ _ => 0.5,
            solve_rotation := fun d => { d with landmark_coords := fun _ => 1 } }
          { rows := 480, cols := 640, data := [] }
          { landmark_coords := fun _ => 7, face_coords := (10, 20, 110, 220),
            face_detected := true }
          (some fun lc => lc) = some (r, calls) ∧
        r.face_detected = false ∧
        r.landmark_coords = (fun _ => 7) ∧
        r.face_coords = (10, 20, 110, 220) ∧
        calls = [Call.face_detector] ∧
        Call.landmark_session ∉ calls ∧ Call.landmark_filter ∉ calls ∧
        Call.pose_solver ∉ calls :=
  predict_no_detection EfficientTracker
    { ln := fun q => q - 1, resize := fun m _ _ => m, crop := fun m _ _ => m,
      face_detector_detect := fun _ => [], landmark_model := fun _ _ => 0.5,
      solve_rotation := fun d => { d with landmark_coords := fun _ => 1 } }
    { rows := 480, cols := 640, data := [] }
    { landmark_coords := fun _ => 7, face_coords := (10, 20, 110, 220), face_detected := true }
    (some fun lc => lc) rfl

end AITracker
